import Mathlib

/-!
Verification of trapdoor-1.0 (`src/server.py`), a tiered-access HTTP gateway
exposing filesystem and command-execution operations behind a bearer token.

Shallow embedding notes:
* Python strings are sequences of Unicode code points; they are embedded as
  Lean `String` (whose `data` is the code-point list).  Python `len` on a
  string is the code-point count, i.e. `String.length`.
* The process-wide globals `TOKEN` and `ACCESS`, and the ambient facilities
  (path canonicalization `Path(...).expanduser().resolve()`, the directory
  reader `iterdir`, the process spawner `subprocess.run`) are parameters of
  each handler: the handlers are pure functions of them.
* `raise HTTPException(status, detail)` is the `Resp.httpError` constructor;
  an uncaught Python exception (which FastAPI turns into a 500) is
  `Resp.crash`.
-/

/-! ## Access levels (server.py lines 31-56) -/

/-- The four permission dimensions checked by the handlers:
`fs_read`, `fs_write`, `fs_delete`, `exec` in the LEVELS dicts. -/
inductive Capability where
  | read
  | write
  | delete
  | exec
deriving DecidableEq, Fintype

/-- One entry of the LEVELS table: a description plus four booleans
(server.py lines 32-52). -/
structure AccessLevel where
  description : String
  fs_read : Bool
  fs_write : Bool
  fs_delete : Bool
  exec : Bool
deriving DecidableEq

/-- LEVELS["limited"] (server.py lines 32-38). -/
def limited : AccessLevel :=
  { description := "Read-only filesystem, no command execution"
    fs_read := true, fs_write := false, fs_delete := false, exec := false }

/-- LEVELS["solid"] (server.py lines 39-45). -/
def solid : AccessLevel :=
  { description := "Read/write filesystem, no command execution"
    fs_read := true, fs_write := true, fs_delete := false, exec := false }

/-- LEVELS["full"] (server.py lines 46-52). -/
def full : AccessLevel :=
  { description := "Full access: filesystem + command execution"
    fs_read := true, fs_write := true, fs_delete := true, exec := true }

/-- The LEVELS dict (server.py lines 31-53), as an association list. -/
def LEVELS : List (String × AccessLevel) :=
  [("limited", limited), ("solid", solid), ("full", full)]

/-- Which boolean of the level each capability reads: the lookups
ACCESS["fs_read"], ACCESS["fs_write"], ACCESS["fs_delete"], ACCESS["exec"]
performed by the handlers (server.py lines 183, 223, 249, 272, 289, 316). -/
def isAllowed (l : AccessLevel) : Capability → Bool
  | .read => l.fs_read
  | .write => l.fs_write
  | .delete => l.fs_delete
  | .exec => l.exec

/-! ## Authentication (server.py lines 115-124) -/

/-- An HTTPException(status_code, detail) raised by a handler. -/
structure HTTPException where
  status : Nat
  detail : String
deriving DecidableEq

/-- The code points after the first space of a string: this is Python
`s.split(" ", 1)[1]` whenever `s` contains a space (server.py line 120;
the call site is guarded by startswith("Bearer "), so a space exists). -/
def afterFirstSpace : List Char → List Char
  | [] => []
  | c :: cs => if c = ' ' then cs else afterFirstSpace cs

/-- Python `authorization.split(" ", 1)[1]` (server.py line 120). -/
def bearerToken (a : String) : String :=
  String.mk (afterFirstSpace a.data)

/-- Python `authorization.startswith("Bearer ")` (server.py line 117):
prefix test on the code-point sequence. -/
def startsWithBearer (a : String) : Bool :=
  "Bearer ".data.isPrefixOf a.data

/-- require_auth (server.py lines 115-124).  The first guard is
`if not authorization or not authorization.startswith("Bearer ")`; the
falsy values of an Optional[str] are None and the empty string, and the
empty string fails the startswith test anyway, so the two guards coincide
with the match below. -/
def require_auth (TOKEN : String) (authorization : Option String) :
    Except HTTPException String :=
  match authorization with
  | none => .error ⟨401, "Missing Authorization header"⟩
  | some a =>
    if startsWithBearer a = false then
      .error ⟨401, "Missing Authorization header"⟩
    else
      let token := bearerToken a
      if token ≠ TOKEN then .error ⟨403, "Invalid token"⟩
      else .ok token

/-! ## Filesystem state -/

/-- A filesystem object: a regular file with (decoded text) content, or a
directory.  All contents written through this server are text
(`WriteRequest.content : str`), so file content is a `String`; binary
files, whose read path is server.py line 238, are outside the model. -/
inductive Node where
  | file (content : String)
  | dir
deriving DecidableEq

/-- The host filesystem, keyed by canonicalized paths represented as
component lists (the result of `Path(...).expanduser().resolve()`). -/
structure FS where
  node : List String → Option Node

def FS.empty : FS := ⟨fun _ => none⟩

def FS.setFile (fs : FS) (p : List String) (content : String) : FS :=
  ⟨fun q => if q = p then some (.file content) else fs.node q⟩

def FS.setDir (fs : FS) (p : List String) : FS :=
  ⟨fun q => if q = p then some .dir else fs.node q⟩

/-- shutil.rmtree: removes the directory and everything below it
(server.py line 298). -/
def FS.removeTree (fs : FS) (p : List String) : FS :=
  ⟨fun q => if p.isPrefixOf q then none else fs.node q⟩

/-- Path.unlink: removes a single file (server.py line 300). -/
def FS.unlink (fs : FS) (p : List String) : FS :=
  ⟨fun q => if q = p then none else fs.node q⟩

/-- Path.mkdir(parents=True, exist_ok=True), structured as CPython's
Path.mkdir: try the target first; if it already exists as a directory,
exist_ok suppresses the error; if it exists as a non-directory,
FileExistsError propagates; otherwise create the missing parent chain,
then the target.  The fuel argument (initially the path length) bounds the
recursion depth — each recursive call shortens the path by one component —
and makes the function structurally recursive. -/
def mkdirTreeAux (fs : FS) (fuel : Nat) (p : List String) : Except String FS :=
  match fs.node p, fuel, p with
  | some .dir, _, _ => .ok fs
  | some (.file _), _, _ => .error "FileExistsError"
  | none, _, [] => .ok (fs.setDir [])
  | none, 0, _ :: _ => .error "FileExistsError"
  | none, f + 1, x :: xs =>
    match mkdirTreeAux fs f (x :: xs).dropLast with
    | .error e => .error e
    | .ok fs1 => .ok (fs1.setDir (x :: xs))

/-- Path.mkdir(parents=True, exist_ok=True) on path p (server.py lines
253 and 276). -/
def mkdirTree (fs : FS) (p : List String) : Except String FS :=
  mkdirTreeAux fs p.length p

/-! ## Request and response shapes (server.py lines 130-148) -/

/-- WriteRequest (server.py lines 130-133); mode defaults to "write". -/
structure WriteRequest where
  path : String
  content : String
  mode : String := "write"
deriving DecidableEq

/-- MkdirRequest (server.py lines 135-136). -/
structure MkdirRequest where
  path : String
deriving DecidableEq

/-- RmRequest (server.py lines 138-139). -/
structure RmRequest where
  path : String
deriving DecidableEq

/-- ExecRequest (server.py lines 141-144); cwd defaults to "/tmp",
timeout to 60. -/
structure ExecRequest where
  cmd : List String
  cwd : String := "/tmp"
  timeout : Nat := 60
deriving DecidableEq

/-- Outcome of a handler: a JSON success value, a raised
HTTPException(status, detail), or an uncaught Python exception (named by
its class), which FastAPI surfaces as a 500. -/
inductive Resp (α : Type) where
  | ok : α → Resp α
  | httpError : Nat → String → Resp α
  | crash : String → Resp α
deriving DecidableEq

/-- The JSON body returned by fs_write (server.py line 261). -/
structure WriteResponse where
  path : List String
  written : Nat
  mode : String
deriving DecidableEq

/-- The JSON body returned by fs_read on a text file (server.py line 236). -/
structure ReadResponse where
  path : List String
  content : String
  size : Nat
deriving DecidableEq

/-- The JSON body returned by fs_mkdir (server.py line 278). -/
structure MkdirResponse where
  path : List String
  created : Bool
deriving DecidableEq

/-- The JSON body returned by fs_rm (server.py line 302). -/
structure RmResponse where
  path : List String
  removed : Bool
deriving DecidableEq

/-- One directory entry as produced by the listing loop (server.py lines
204-210): the success dict carries name/type/size (size present only for
files), the PermissionError dict carries name/type/error.  Absent JSON
keys are `none`. -/
structure Entry where
  name : String
  type : String
  size : Option Nat
  error : Option String
deriving DecidableEq

/-- The JSON body returned by fs_ls: single-file metadata (server.py lines
193-198; the modified-timestamp field is environment time and is not
modelled) or a directory listing (line 212). -/
inductive LsResult where
  | fileInfo (path : List String) (size : Nat)
  | listing (path : List String) (entries : List Entry)
deriving DecidableEq

/-- The JSON body returned by exec_command (server.py lines 328-334). -/
structure ExecResponse where
  cmd : List String
  cwd : String
  stdout : String
  stderr : String
  returncode : Int
deriving DecidableEq

/-! ## Directory iteration and sorting (server.py lines 200-210) -/

/-- What `target.iterdir()` plus the per-item `stat()`/`is_dir()`/`is_file()`
calls can observe about one child: its name, kinds, `st_size`, and whether
`stat()` succeeds (`statOk = false` means it raises PermissionError). -/
structure DirEntry where
  name : String
  isDir : Bool
  isFile : Bool
  size : Nat
  statOk : Bool
deriving DecidableEq

/-- Code-point lexicographic order on strings — Python's `<=` on str,
which is what `sorted` uses on the names of paths sharing a parent. -/
def lexLe : List Char → List Char → Bool
  | [], _ => true
  | _ :: _, [] => false
  | a :: as, b :: bs =>
    if a.toNat < b.toNat then true
    else if b.toNat < a.toNat then false
    else lexLe as bs

theorem lexLe_total : ∀ x y : List Char, lexLe x y = true ∨ lexLe y x = true := by
  intro x
  induction x with
  | nil => intro y; left; rfl
  | cons a as ih =>
    intro y
    cases y with
    | nil => right; rfl
    | cons b bs =>
      by_cases h1 : a.toNat < b.toNat
      · left; simp [lexLe, h1]
      · by_cases h2 : b.toNat < a.toNat
        · right; simp [lexLe, h2]
        · rcases ih bs with h | h
          · left; simp [lexLe, h1, h2, h]
          · right; simp [lexLe, h1, h2, h]

theorem lexLe_trans : ∀ x y z : List Char,
    lexLe x y = true → lexLe y z = true → lexLe x z = true := by
  intro x
  induction x with
  | nil => intro y z _ _; rfl
  | cons a as ih =>
    intro y z hxy hyz
    cases y with
    | nil => simp [lexLe] at hxy
    | cons b bs =>
      cases z with
      | nil => simp [lexLe] at hyz
      | cons c cs =>
        rcases Nat.lt_trichotomy a.toNat b.toNat with hab | hab | hab
        · rcases Nat.lt_trichotomy b.toNat c.toNat with hbc | hbc | hbc
          · simp [lexLe, show a.toNat < c.toNat by omega]
          · simp [lexLe, show a.toNat < c.toNat by omega]
          · simp [lexLe, show ¬ b.toNat < c.toNat by omega, hbc] at hyz
        · rcases Nat.lt_trichotomy b.toNat c.toNat with hbc | hbc | hbc
          · simp [lexLe, show a.toNat < c.toNat by omega]
          · simp [lexLe, show ¬ a.toNat < b.toNat by omega,
              show ¬ b.toNat < a.toNat by omega] at hxy
            simp [lexLe, show ¬ b.toNat < c.toNat by omega,
              show ¬ c.toNat < b.toNat by omega] at hyz
            simp [lexLe, show ¬ a.toNat < c.toNat by omega,
              show ¬ c.toNat < a.toNat by omega]
            exact ih bs cs hxy hyz
          · simp [lexLe, show ¬ b.toNat < c.toNat by omega, hbc] at hyz
        · simp [lexLe, show ¬ a.toNat < b.toNat by omega, hab] at hxy

/-- The ordering relation on directory entries used by the listing:
compare names as Python strings. -/
def entryLe (a b : DirEntry) : Prop := lexLe a.name.data b.name.data = true

instance : DecidableRel entryLe := fun a b => by
  unfold entryLe; infer_instance

instance : IsTotal DirEntry entryLe :=
  ⟨fun a b => lexLe_total a.name.data b.name.data⟩

instance : IsTrans DirEntry entryLe :=
  ⟨fun a b c => lexLe_trans a.name.data b.name.data c.name.data⟩

/-- Python `sorted(target.iterdir())` (server.py line 201): the children of
one directory sorted by name (paths sharing a parent compare by their last
component).  Python's sort is a stable comparison sort; insertion sort is
used as the executable model. -/
def sortByName (l : List DirEntry) : List DirEntry :=
  l.insertionSort entryLe

/-- The body of the per-entry loop (server.py lines 202-210): a successful
stat yields the name/type/size dict; a PermissionError from stat degrades
the entry to type "unknown" with an error marker. -/
def entryView (d : DirEntry) : Entry :=
  if d.statOk then
    { name := d.name
      type := if d.isDir then "dir" else "file"
      size := if d.isFile then some d.size else none
      error := none }
  else
    { name := d.name, type := "unknown", size := none,
      error := some "permission denied" }

/-! ## Handlers -/

/-- fs_ls (server.py lines 175-212).  The exists/is_dir tests and the
file-metadata branch become a three-way match on the resolved node; the
file branch reports `stat().st_size`, the byte size of the content. -/
def fs_ls (TOKEN : String) (ACCESS : AccessLevel) (resolve : String → List String)
    (fs : FS) (iterdir : List String → List DirEntry)
    (path : String) (authorization : Option String) : Resp LsResult :=
  match require_auth TOKEN authorization with
  | .error e => .httpError e.status e.detail
  | .ok _ =>
  if ACCESS.fs_read = false then .httpError 403 "Read access disabled"
  else
    let target := resolve path
    match fs.node target with
    | none => .httpError 404 ("Path not found: " ++ path)
    | some (.file c) => .ok (.fileInfo target c.utf8ByteSize)
    | some .dir => .ok (.listing target ((sortByName (iterdir target)).map entryView))

/-- fs_read (server.py lines 215-238).  Stored content is text, so the
UnicodeDecodeError branch (line 238) is unreachable in the model; `size`
is `len(content)`, the code-point count. -/
def fs_read (TOKEN : String) (ACCESS : AccessLevel) (resolve : String → List String)
    (fs : FS) (path : String) (authorization : Option String) : Resp ReadResponse :=
  match require_auth TOKEN authorization with
  | .error e => .httpError e.status e.detail
  | .ok _ =>
  if ACCESS.fs_read = false then .httpError 403 "Read access disabled"
  else
    let target := resolve path
    match fs.node target with
    | none => .httpError 404 ("File not found: " ++ path)
    | some .dir => .httpError 400 ("Not a file: " ++ path)
    | some (.file c) => .ok { path := target, content := c, size := c.length }

/-- fs_write (server.py lines 241-261).  After the parent mkdir,
mode == "append" opens for append (creating the file if missing), any
other mode is `write_text`, truncate-and-replace; writing over a directory
raises IsADirectoryError.  The response reports `len(req.content)`. -/
def fs_write (TOKEN : String) (ACCESS : AccessLevel) (resolve : String → List String)
    (fs : FS) (req : WriteRequest) (authorization : Option String) :
    FS × Resp WriteResponse :=
  match require_auth TOKEN authorization with
  | .error e => (fs, .httpError e.status e.detail)
  | .ok _ =>
  if ACCESS.fs_write = false then
    (fs, .httpError 403 "Write access disabled. Start with --solid or --full")
  else
    let target := resolve req.path
    match mkdirTree fs target.dropLast with
    | .error e => (fs, .crash e)
    | .ok fs1 =>
      if req.mode = "append" then
        match fs1.node target with
        | some .dir => (fs1, .crash "IsADirectoryError")
        | some (.file c) =>
          (fs1.setFile target (c ++ req.content),
           .ok ⟨target, req.content.length, req.mode⟩)
        | none =>
          (fs1.setFile target req.content,
           .ok ⟨target, req.content.length, req.mode⟩)
      else
        match fs1.node target with
        | some .dir => (fs1, .crash "IsADirectoryError")
        | _ =>
          (fs1.setFile target req.content,
           .ok ⟨target, req.content.length, req.mode⟩)

/-- fs_mkdir (server.py lines 264-278): parent-creating, exist_ok mkdir;
the response always reports created:true on success. -/
def fs_mkdir (TOKEN : String) (ACCESS : AccessLevel) (resolve : String → List String)
    (fs : FS) (req : MkdirRequest) (authorization : Option String) :
    FS × Resp MkdirResponse :=
  match require_auth TOKEN authorization with
  | .error e => (fs, .httpError e.status e.detail)
  | .ok _ =>
  if ACCESS.fs_write = false then
    (fs, .httpError 403 "Write access disabled. Start with --solid or --full")
  else
    let target := resolve req.path
    match mkdirTree fs target with
    | .error e => (fs, .crash e)
    | .ok fs1 => (fs1, .ok ⟨target, true⟩)

/-- fs_rm (server.py lines 281-302): auth, then the capability gate, then
the existence check; directories are removed recursively, files unlinked. -/
def fs_rm (TOKEN : String) (ACCESS : AccessLevel) (resolve : String → List String)
    (fs : FS) (req : RmRequest) (authorization : Option String) :
    FS × Resp RmResponse :=
  match require_auth TOKEN authorization with
  | .error e => (fs, .httpError e.status e.detail)
  | .ok _ =>
  if ACCESS.fs_delete = false then
    (fs, .httpError 403 "Delete access disabled. Start with --full")
  else
    let target := resolve req.path
    match fs.node target with
    | none => (fs, .httpError 404 ("Path not found: " ++ req.path))
    | some .dir => (fs.removeTree target, .ok ⟨target, true⟩)
    | some (.file _) => (fs.unlink target, .ok ⟨target, true⟩)

/-- Why a spawn attempt raised FileNotFoundError: CPython's subprocess
raises that same exception class both when the program name cannot be
resolved to an executable and when the child's chdir to a nonexistent
working directory fails (the child re-raises the original OSError in the
parent). -/
inductive FNFCause where
  | program
  | missingCwd
deriving DecidableEq

/-- What one subprocess.run call can be observed to do: run to completion
with captured output and exit code, exceed the timeout
(subprocess.TimeoutExpired), or raise FileNotFoundError while spawning. -/
inductive SpawnOutcome where
  | completed (stdout stderr : String) (returncode : Int)
  | timedOut
  | fileNotFound (cause : FNFCause)
deriving DecidableEq

/-- exec_command (server.py lines 308-338).  A completed run is returned
as a success carrying the exit code; TimeoutExpired maps to 408;
FileNotFoundError maps to 400 "Command not found: cmd[0]" — the except
clause sees only the exception class, not its cause.  (`cmd[0]` is total
here because a spawn was attempted, so cmd is nonempty.) -/
def exec_command (TOKEN : String) (ACCESS : AccessLevel)
    (run : ExecRequest → SpawnOutcome) (req : ExecRequest)
    (authorization : Option String) : Resp ExecResponse :=
  match require_auth TOKEN authorization with
  | .error e => .httpError e.status e.detail
  | .ok _ =>
  if ACCESS.exec = false then .httpError 403 "Exec disabled. Start with --full to enable"
  else
    match run req with
    | .completed out err code => .ok ⟨req.cmd, req.cwd, out, err, code⟩
    | .timedOut =>
      .httpError 408 ("Command timed out after " ++ toString req.timeout ++ "s")
    | .fileNotFound _ =>
      .httpError 400 ("Command not found: " ++ req.cmd.headD "")

/-! ## Helper lemmas -/

theorem FS.setDir_self (fs : FS) (p : List String) :
    (fs.setDir p).node p = some .dir := by
  simp [FS.setDir]

theorem FS.setFile_self (fs : FS) (p : List String) (c : String) :
    (fs.setFile p c).node p = some (.file c) := by
  simp [FS.setFile]

theorem entryView_name (d : DirEntry) : (entryView d).name = d.name := by
  by_cases h : d.statOk <;> simp [entryView, h]

theorem mkdirTreeAux_dir (fs : FS) (fuel : Nat) (p : List String)
    (h : fs.node p = some .dir) : mkdirTreeAux fs fuel p = .ok fs := by
  unfold mkdirTreeAux
  rw [h]

theorem mkdir_sets_dir (fs fs1 : FS) (fuel : Nat) (p : List String)
    (h : mkdirTreeAux fs fuel p = .ok fs1) : fs1.node p = some .dir := by
  unfold mkdirTreeAux at h
  rcases hn : fs.node p with _ | nd
  · rw [hn] at h
    rcases p with _ | ⟨x, xs⟩
    · cases fuel with
      | zero => simp at h; subst h; exact FS.setDir_self _ _
      | succ f => simp at h; subst h; exact FS.setDir_self _ _
    · cases fuel with
      | zero => simp at h
      | succ f =>
        simp only [Nat.succ_eq_add_one] at h
        rcases hrec : mkdirTreeAux fs f ((x :: xs).dropLast) with e | fs2
        · simp [hrec] at h
        · simp [hrec] at h
          subst h
          exact FS.setDir_self _ _
  · rw [hn] at h
    cases nd with
    | file c => simp at h
    | dir =>
      simp at h
      subst h
      exact hn

/-- Concrete canonicalization used by the witnesses below: each raw path
string resolves to a one-component absolute path. -/
def resolveSimple : String → List String := fun s => [s]

/-- Concrete directory reader used by witnesses: every directory is empty. -/
def noEntries : List String → List DirEntry := fun _ => []

/-- Concrete spawn facility used by witnesses: every command completes
immediately with empty output and exit code 0. -/
def runTrivial : ExecRequest → SpawnOutcome := fun _ => .completed "" "" 0

/-! ## Claims -/

/-- Claim C1: capability grants are monotonic across the three access
levels — for every capability, a grant at Limited implies a grant at Solid
and a grant at Solid implies a grant at Full; no level of the LEVELS table
grants delete without write; and among the levels of the table, execute is
granted exactly by Full. -/
theorem levels_monotone :
    (∀ c : Capability,
        (isAllowed limited c = true → isAllowed solid c = true)
      ∧ (isAllowed solid c = true → isAllowed full c = true))
  ∧ (∀ p ∈ LEVELS, isAllowed p.2 .delete = true → isAllowed p.2 .write = true)
  ∧ (∀ p ∈ LEVELS, (isAllowed p.2 .exec = true ↔ p.2 = full)) := by
  decide

theorem levels_monotone_witness :
    isAllowed solid Capability.read = true ∧ isAllowed full Capability.exec = true :=
  ⟨(levels_monotone.1 Capability.read).1 (by decide),
   (levels_monotone.2.2 ("full", full) (by decide)).mpr rfl⟩

/-- Claim C2: on every protected endpoint, a missing Authorization header
or one without the bearer shape yields 401; a bearer-shaped header whose
presented token differs from the stored secret yields 403; a matching
token authenticates — and the 401/403 outcomes are independent of the
access level, the filesystem, and the target path or request, as the last
conjunct states for all six protected handlers. -/
theorem auth_contract (TOKEN : String) (authorization : Option String)
    (ACCESS : AccessLevel) (resolve : String → List String) (fs : FS)
    (iterdir : List String → List DirEntry) (run : ExecRequest → SpawnOutcome)
    (path : String) (wreq : WriteRequest) (mreq : MkdirRequest) (rreq : RmRequest)
    (ereq : ExecRequest) :
    (authorization = none →
        require_auth TOKEN authorization = .error ⟨401, "Missing Authorization header"⟩)
  ∧ (∀ a, authorization = some a → startsWithBearer a = false →
        require_auth TOKEN authorization = .error ⟨401, "Missing Authorization header"⟩)
  ∧ (∀ a, authorization = some a → startsWithBearer a = true → bearerToken a ≠ TOKEN →
        require_auth TOKEN authorization = .error ⟨403, "Invalid token"⟩)
  ∧ (∀ a, authorization = some a → startsWithBearer a = true → bearerToken a = TOKEN →
        require_auth TOKEN authorization = .ok TOKEN)
  ∧ (∀ e, require_auth TOKEN authorization = .error e →
        fs_ls TOKEN ACCESS resolve fs iterdir path authorization
          = .httpError e.status e.detail
      ∧ fs_read TOKEN ACCESS resolve fs path authorization
          = .httpError e.status e.detail
      ∧ fs_write TOKEN ACCESS resolve fs wreq authorization
          = (fs, .httpError e.status e.detail)
      ∧ fs_mkdir TOKEN ACCESS resolve fs mreq authorization
          = (fs, .httpError e.status e.detail)
      ∧ fs_rm TOKEN ACCESS resolve fs rreq authorization
          = (fs, .httpError e.status e.detail)
      ∧ exec_command TOKEN ACCESS run ereq authorization
          = .httpError e.status e.detail) := by
  refine ⟨?_, ?_, ?_, ?_, ?_⟩
  · intro h; subst h; rfl
  · intro a hsome hpre; subst hsome; simp [require_auth, hpre]
  · intro a hsome hpre hne; subst hsome; simp [require_auth, hpre, hne]
  · intro a hsome hpre heq; subst hsome; simp [require_auth, hpre, heq]
  · intro e he
    refine ⟨?_, ?_, ?_, ?_, ?_, ?_⟩ <;>
      simp [fs_ls, fs_read, fs_write, fs_mkdir, fs_rm, exec_command, he]

theorem auth_contract_witness :
    require_auth "s3cret" none = .error ⟨401, "Missing Authorization header"⟩
  ∧ require_auth "s3cret" (some "Token s3cret")
      = .error ⟨401, "Missing Authorization header"⟩
  ∧ require_auth "s3cret" (some "Bearer nope") = .error ⟨403, "Invalid token"⟩
  ∧ require_auth "s3cret" (some "Bearer s3cret") = .ok "s3cret"
  ∧ fs_rm "s3cret" full resolveSimple FS.empty ⟨"x"⟩ none
      = (FS.empty, .httpError 401 "Missing Authorization header") :=
  ⟨(auth_contract "s3cret" none full resolveSimple FS.empty noEntries runTrivial
      "p" ⟨"p", "c", "write"⟩ ⟨"p"⟩ ⟨"x"⟩ ⟨["ls"], "/tmp", 60⟩).1 rfl,
   (auth_contract "s3cret" (some "Token s3cret") full resolveSimple FS.empty noEntries
      runTrivial "p" ⟨"p", "c", "write"⟩ ⟨"p"⟩ ⟨"x"⟩ ⟨["ls"], "/tmp", 60⟩).2.1
      "Token s3cret" rfl (by decide),
   (auth_contract "s3cret" (some "Bearer nope") full resolveSimple FS.empty noEntries
      runTrivial "p" ⟨"p", "c", "write"⟩ ⟨"p"⟩ ⟨"x"⟩ ⟨["ls"], "/tmp", 60⟩).2.2.1
      "Bearer nope" rfl (by decide) (by decide),
   (auth_contract "s3cret" (some "Bearer s3cret") full resolveSimple FS.empty noEntries
      runTrivial "p" ⟨"p", "c", "write"⟩ ⟨"p"⟩ ⟨"x"⟩ ⟨["ls"], "/tmp", 60⟩).2.2.2.1
      "Bearer s3cret" rfl (by decide) (by decide),
   ((auth_contract "s3cret" none full resolveSimple FS.empty noEntries runTrivial
      "p" ⟨"p", "c", "write"⟩ ⟨"p"⟩ ⟨"x"⟩ ⟨["ls"], "/tmp", 60⟩).2.2.2.2
      ⟨401, "Missing Authorization header"⟩ rfl).2.2.2.2.1⟩

/-- Claim C3: with a correct credential, an operation whose capability the
active level does not grant yields 403 with the handler's detail message,
for every filesystem state (in particular when the target exists, so no
404 is possible), with the state returned unchanged and, for exec, for
every behaviour of the spawn facility (so nothing is executed); the
capability test sits after authentication and before any path test. -/
theorem capability_gate (TOKEN : String) (authorization : Option String) (t : String)
    (ACCESS : AccessLevel) (resolve : String → List String) (fs : FS)
    (iterdir : List String → List DirEntry) (run : ExecRequest → SpawnOutcome)
    (path : String) (wreq : WriteRequest) (mreq : MkdirRequest) (rreq : RmRequest)
    (ereq : ExecRequest)
    (ha : require_auth TOKEN authorization = .ok t) :
    (ACCESS.fs_read = false →
        fs_ls TOKEN ACCESS resolve fs iterdir path authorization
          = .httpError 403 "Read access disabled"
      ∧ fs_read TOKEN ACCESS resolve fs path authorization
          = .httpError 403 "Read access disabled")
  ∧ (ACCESS.fs_write = false →
        fs_write TOKEN ACCESS resolve fs wreq authorization
          = (fs, .httpError 403 "Write access disabled. Start with --solid or --full")
      ∧ fs_mkdir TOKEN ACCESS resolve fs mreq authorization
          = (fs, .httpError 403 "Write access disabled. Start with --solid or --full"))
  ∧ (ACCESS.fs_delete = false →
        fs_rm TOKEN ACCESS resolve fs rreq authorization
          = (fs, .httpError 403 "Delete access disabled. Start with --full"))
  ∧ (ACCESS.exec = false →
        exec_command TOKEN ACCESS run ereq authorization
          = .httpError 403 "Exec disabled. Start with --full to enable") := by
  refine ⟨fun h => ⟨?_, ?_⟩, fun h => ⟨?_, ?_⟩, fun h => ?_, fun h => ?_⟩ <;>
    simp [fs_ls, fs_read, fs_write, fs_mkdir, fs_rm, exec_command, ha, h]

theorem capability_gate_witness :
    fs_rm "s" limited resolveSimple (FS.empty.setFile ["x"] "hi") ⟨"x"⟩ (some "Bearer s")
      = (FS.empty.setFile ["x"] "hi", .httpError 403 "Delete access disabled. Start with --full")
  ∧ exec_command "s" limited runTrivial ⟨["echo"], "/tmp", 5⟩ (some "Bearer s")
      = .httpError 403 "Exec disabled. Start with --full to enable" :=
  ⟨(capability_gate "s" (some "Bearer s") "s" limited resolveSimple
      (FS.empty.setFile ["x"] "hi") noEntries runTrivial "p" ⟨"p", "c", "write"⟩
      ⟨"p"⟩ ⟨"x"⟩ ⟨["echo"], "/tmp", 5⟩ rfl).2.2.1 rfl,
   (capability_gate "s" (some "Bearer s") "s" limited resolveSimple
      (FS.empty.setFile ["x"] "hi") noEntries runTrivial "p" ⟨"p", "c", "write"⟩
      ⟨"p"⟩ ⟨"x"⟩ ⟨["echo"], "/tmp", 5⟩ rfl).2.2.2 rfl⟩

/-- Claim C4: writing content C to path P in mode "write" and then reading
P returns exactly C with size equal to len(C), whenever the write
succeeded and the level grants both write and read. -/
theorem write_read_roundtrip
    (TOKEN : String) (authorization : Option String) (t : String)
    (ACCESS : AccessLevel) (resolve : String → List String) (fs : FS)
    (req : WriteRequest) (w : WriteResponse)
    (ha : require_auth TOKEN authorization = .ok t)
    (hw : ACCESS.fs_write = true) (hr : ACCESS.fs_read = true)
    (hm : req.mode = "write")
    (hok : (fs_write TOKEN ACCESS resolve fs req authorization).2 = .ok w) :
    fs_read TOKEN ACCESS resolve
        (fs_write TOKEN ACCESS resolve fs req authorization).1 req.path authorization
      = .ok { path := resolve req.path, content := req.content,
              size := req.content.length } := by
  simp only [fs_write, ha, hw, hm] at hok ⊢
  rcases hmk : mkdirTree fs ((resolve req.path).dropLast) with e | fs1 <;>
    simp only [hmk] at hok ⊢
  · simp at hok
  · simp only [show ("write" = "append") = False by simp, if_false, ite_false] at hok ⊢
    rcases hn : fs1.node (resolve req.path) with _ | nd
    · simp only [hn] at hok ⊢
      simp [fs_read, ha, hr, FS.setFile]
    · cases nd with
      | dir => simp [hn] at hok
      | file c =>
        simp only [hn] at hok ⊢
        simp [fs_read, ha, hr, FS.setFile]

theorem write_read_roundtrip_witness :
    fs_read "s" solid resolveSimple
        (fs_write "s" solid resolveSimple FS.empty
          ⟨"f.txt", "hello", "write"⟩ (some "Bearer s")).1
        "f.txt" (some "Bearer s")
      = .ok { path := ["f.txt"], content := "hello", size := 5 } :=
  write_read_roundtrip "s" (some "Bearer s") "s" solid resolveSimple FS.empty
    ⟨"f.txt", "hello", "write"⟩ ⟨["f.txt"], 5, "write"⟩ rfl rfl rfl rfl rfl

/-- Claim C5 counterexample: the write response reports
`len(req.content)`, the code-point count, not the byte length of the
stored content.  Writing the single-character content "é" (stored as two
UTF-8 bytes) reports written = 1 while the stored content occupies 2
bytes, so the reported count is not the byte length. -/
theorem write_reports_bytes_cex :
    (fs_write "s" solid resolveSimple FS.empty
        ⟨"f", "é", "write"⟩ (some "Bearer s")).2
      = .ok ⟨["f"], 1, "write"⟩
  ∧ String.utf8ByteSize "é" = 2
  ∧ (1 : Nat) ≠ 2 :=
  ⟨rfl, by decide, by decide⟩

/-- Claim C5 (amended): every successful write reports, besides the mode
used, a count equal to the number of characters (code points) of the
supplied content — which coincides with the byte length only for contents
whose UTF-8 encoding is one byte per character. -/
theorem write_reports_char_count
    (TOKEN : String) (authorization : Option String) (ACCESS : AccessLevel)
    (resolve : String → List String) (fs : FS) (req : WriteRequest) (w : WriteResponse)
    (hok : (fs_write TOKEN ACCESS resolve fs req authorization).2 = .ok w) :
    w.written = req.content.length ∧ w.mode = req.mode := by
  simp only [fs_write] at hok
  rcases hra : require_auth TOKEN authorization with e | t <;> simp only [hra] at hok
  · simp at hok
  · by_cases hcap : ACCESS.fs_write = false
    · simp [hcap] at hok
    · rw [if_neg hcap] at hok
      rcases hmk : mkdirTree fs ((resolve req.path).dropLast) with e | fs1 <;>
        simp only [hmk] at hok
      · simp at hok
      · by_cases hm : req.mode = "append"
      
        · rw [if_pos hm] at hok
          rcases hn : fs1.node (resolve req.path) with _ | nd <;>
            simp only [hn] at hok
          · simp at hok
            subst hok
            exact ⟨rfl, rfl⟩
          · cases nd with
            | dir => simp at hok
            | file c =>
              simp at hok
              subst hok
              exact ⟨rfl, rfl⟩
        · rw [if_neg hm] at hok
          rcases hn : fs1.node (resolve req.path) with _ | nd <;>
            simp only [hn] at hok
          · simp at hok
            subst hok
            exact ⟨rfl, rfl⟩
          · cases nd with
            | dir => simp at hok
            | file c =>
              simp at hok
              subst hok
              exact ⟨rfl, rfl⟩

theorem write_reports_char_count_witness :
    (WriteResponse.mk ["f"] 5 "write").written = ("héllo" : String).length
  ∧ (WriteResponse.mk ["f"] 5 "write").mode = ("write" : String) :=
  write_reports_char_count "s" (some "Bearer s") solid resolveSimple FS.empty
    ⟨"f", "héllo", "write"⟩ ⟨["f"], 5, "write"⟩ rfl

/-- Claim C6: with a correct credential and the write capability, mkdir on
an already-existing directory succeeds with created:true and leaves the
state untouched; and whenever a first mkdir succeeds, its response is
created:true and a second identical mkdir also succeeds with created:true
without changing the state further. -/
theorem mkdir_idempotent
    (TOKEN : String) (authorization : Option String) (t : String)
    (ACCESS : AccessLevel) (resolve : String → List String) (fs : FS)
    (req : MkdirRequest)
    (ha : require_auth TOKEN authorization = .ok t)
    (hw : ACCESS.fs_write = true) :
    (fs.node (resolve req.path) = some .dir →
        fs_mkdir TOKEN ACCESS resolve fs req authorization
          = (fs, .ok ⟨resolve req.path, true⟩))
  ∧ (∀ r, (fs_mkdir TOKEN ACCESS resolve fs req authorization).2 = .ok r →
        r = ⟨resolve req.path, true⟩
      ∧ fs_mkdir TOKEN ACCESS resolve
            (fs_mkdir TOKEN ACCESS resolve fs req authorization).1 req authorization
          = ((fs_mkdir TOKEN ACCESS resolve fs req authorization).1,
             .ok ⟨resolve req.path, true⟩)) := by
  constructor
  · intro hdir
    simp [fs_mkdir, ha, hw, mkdirTree, mkdirTreeAux_dir _ _ _ hdir]
  · intro r hok
    simp only [fs_mkdir, ha, hw] at hok ⊢
    rcases hmk : mkdirTree fs (resolve req.path) with e | fs1 <;>
      simp only [hmk] at hok ⊢
    · simp at hok
    · simp at hok
      have hdir : fs1.node (resolve req.path) = some .dir :=
        mkdir_sets_dir fs fs1 (resolve req.path).length (resolve req.path) hmk
    
      refine ⟨hok.symm, ?_⟩
      simp [mkdirTree, mkdirTreeAux_dir _ _ _ hdir]

theorem mkdir_idempotent_witness :
    fs_mkdir "s" solid resolveSimple
        (fs_mkdir "s" solid resolveSimple FS.empty ⟨"d"⟩ (some "Bearer s")).1
        ⟨"d"⟩ (some "Bearer s")
      = ((fs_mkdir "s" solid resolveSimple FS.empty ⟨"d"⟩ (some "Bearer s")).1,
         .ok ⟨["d"], true⟩) :=
  ((mkdir_idempotent "s" (some "Bearer s") "s" solid resolveSimple FS.empty
      ⟨"d"⟩ rfl rfl).2 ⟨["d"], true⟩ rfl).2

/-- Claim C7: under a correct credential and the execute capability, a
command that runs to completion is returned as an ordinary success carrying
its exit code (whatever that code is, in particular nonzero), while a
command exceeding the caller-supplied timeout yields the distinct 408
timeout outcome. -/
theorem exec_outcome_taxonomy
    (TOKEN : String) (authorization : Option String) (t : String)
    (ACCESS : AccessLevel) (run : ExecRequest → SpawnOutcome) (req : ExecRequest)
    (ha : require_auth TOKEN authorization = .ok t)
    (hx : ACCESS.exec = true) :
    (∀ out err code, run req = .completed out err code →
        exec_command TOKEN ACCESS run req authorization
          = .ok ⟨req.cmd, req.cwd, out, err, code⟩)
  ∧ (run req = .timedOut →
        exec_command TOKEN ACCESS run req authorization
          = .httpError 408 ("Command timed out after " ++ toString req.timeout ++ "s")) := by
  constructor
  · intro out err code hrun
    simp [exec_command, ha, hx, hrun]
  · intro hrun
    simp [exec_command, ha, hx, hrun]

theorem exec_outcome_taxonomy_witness :
    exec_command "s" full (fun _ => .completed "" "boom" 3)
        ⟨["false"], "/tmp", 5⟩ (some "Bearer s")
      = .ok ⟨["false"], "/tmp", "", "boom", 3⟩
  ∧ exec_command "s" full (fun _ => .timedOut)
        ⟨["sleep", "99"], "/tmp", 5⟩ (some "Bearer s")
      = .httpError 408 "Command timed out after 5s" :=
  ⟨(exec_outcome_taxonomy "s" (some "Bearer s") "s" full
      (fun _ => .completed "" "boom" 3) ⟨["false"], "/tmp", 5⟩ rfl rfl).1
      "" "boom" 3 rfl,
   (exec_outcome_taxonomy "s" (some "Bearer s") "s" full
      (fun _ => .timedOut) ⟨["sleep", "99"], "/tmp", 5⟩ rfl rfl).2 rfl⟩

/-- Claim C8 counterexample: a spawn failure caused by a nonexistent
working directory — CPython subprocess raises FileNotFoundError for it,
the same exception class as for an unresolvable program — is reported as
CommandNotFound 400 naming cmd[0], although the program name ("ls") is
resolvable; so CommandNotFound is not reported exactly when the program
name is unresolvable. -/
theorem command_not_found_cwd_cex :
    exec_command "s" full (fun _ => .fileNotFound .missingCwd)
        ⟨["ls"], "/nonexistent", 60⟩ (some "Bearer s")
      = .httpError 400 "Command not found: ls"
  ∧ FNFCause.missingCwd ≠ FNFCause.program :=
  ⟨rfl, by decide⟩

/-- Claim C8 (amended): under a correct credential and the execute
capability, every FileNotFoundError raised while spawning — whether the
program name is unresolvable or the working directory does not exist —
yields CommandNotFound 400 with a detail naming the first command word;
the handler distinguishes only the exception class, not its cause. -/
theorem fnf_always_command_not_found
    (TOKEN : String) (authorization : Option String) (t : String)
    (ACCESS : AccessLevel) (run : ExecRequest → SpawnOutcome) (req : ExecRequest)
    (cause : FNFCause)
    (ha : require_auth TOKEN authorization = .ok t)
    (hx : ACCESS.exec = true)
    (hrun : run req = .fileNotFound cause) :
    exec_command TOKEN ACCESS run req authorization
      = .httpError 400 ("Command not found: " ++ req.cmd.headD "") := by
  simp [exec_command, ha, hx, hrun]

theorem fnf_always_command_not_found_witness :
    exec_command "s" full (fun _ => .fileNotFound .program)
        ⟨["nosuchcmd"], "/tmp", 60⟩ (some "Bearer s")
      = .httpError 400 "Command not found: nosuchcmd" :=
  fnf_always_command_not_found "s" (some "Bearer s") "s" full
    (fun _ => .fileNotFound .program) ⟨["nosuchcmd"], "/tmp", 60⟩
    .program rfl rfl rfl

/-- Claim C9: with a correct credential and the read capability, listing
an existing directory never fails: it returns exactly the per-entry views
of the name-sorted children, the returned entries are sorted by name, no
child is dropped (the returned names are a permutation of the children's
names), an entry whose stat raises PermissionError degrades to type
"unknown" with a "permission denied" error marker, and every entry whose
stat succeeds carries no error marker. -/
theorem ls_partial_failure
    (TOKEN : String) (authorization : Option String) (t : String)
    (ACCESS : AccessLevel) (resolve : String → List String) (fs : FS)
    (iterdir : List String → List DirEntry) (path : String)
    (ha : require_auth TOKEN authorization = .ok t)
    (hr : ACCESS.fs_read = true)
    (hd : fs.node (resolve path) = some .dir) :
    fs_ls TOKEN ACCESS resolve fs iterdir path authorization
      = .ok (.listing (resolve path)
          ((sortByName (iterdir (resolve path))).map entryView))
  ∧ List.Pairwise (fun a b => lexLe a.name.data b.name.data = true)
      ((sortByName (iterdir (resolve path))).map entryView)
  ∧ (((sortByName (iterdir (resolve path))).map entryView).map Entry.name).Perm
      ((iterdir (resolve path)).map DirEntry.name)
  ∧ (∀ d ∈ iterdir (resolve path), d.statOk = false →
        entryView d = ⟨d.name, "unknown", none, some "permission denied"⟩)
  ∧ (∀ d ∈ iterdir (resolve path), d.statOk = true →
        (entryView d).error = none) := by
  refine ⟨?_, ?_, ?_, ?_, ?_⟩
  · simp [fs_ls, ha, hr, hd]
  · have hs : List.Sorted entryLe (sortByName (iterdir (resolve path))) :=
      List.sorted_insertionSort entryLe (iterdir (resolve path))
    refine List.pairwise_map.mpr ?_
    refine hs.imp ?_
    intro a b hab
    rw [entryView_name, entryView_name]
    exact hab
  · have hp : (sortByName (iterdir (resolve path))).Perm (iterdir (resolve path)) :=
      List.perm_insertionSort entryLe (iterdir (resolve path))
    have hm : ((sortByName (iterdir (resolve path))).map entryView).map Entry.name
        = (sortByName (iterdir (resolve path))).map DirEntry.name := by
      rw [List.map_map]
      exact List.map_congr_left (fun d _ => entryView_name d)
    rw [hm]
    exact hp.map DirEntry.name
  · intro d _ hst
    simp [entryView, hst]
  · intro d _ hst
    simp [entryView, hst]

theorem ls_partial_failure_witness :
    fs_ls "s" limited resolveSimple (FS.empty.setDir ["d"])
        (fun _ => [⟨"b", false, true, 2, true⟩, ⟨"a", true, false, 0, false⟩])
        "d" (some "Bearer s")
      = .ok (.listing ["d"]
          [⟨"a", "unknown", none, some "permission denied"⟩,
           ⟨"b", "file", some 2, none⟩]) :=
  (ls_partial_failure "s" (some "Bearer s") "s" limited resolveSimple
      (FS.empty.setDir ["d"])
      (fun _ => [⟨"b", false, true, 2, true⟩, ⟨"a", true, false, 0, false⟩])
      "d" rfl rfl rfl).1

/-- Claim C10: the write handler does not validate the mode field — for
every mode string other than exactly "append" (such as "banana" or
"APPEND"), a write with correct credential and capability is accepted,
behaves as truncate-and-replace (the stored content afterwards is exactly
the supplied content, whatever was there before), and echoes the supplied
mode string back unchanged in the success response. -/
theorem write_mode_not_validated
    (TOKEN : String) (authorization : Option String) (t : String)
    (ACCESS : AccessLevel) (resolve : String → List String) (fs fs1 : FS)
    (req : WriteRequest)
    (ha : require_auth TOKEN authorization = .ok t)
    (hw : ACCESS.fs_write = true)
    (hm : req.mode ≠ "append")
    (hmk : mkdirTree fs ((resolve req.path).dropLast) = .ok fs1)
    (hnd : fs1.node (resolve req.path) ≠ some .dir) :
    fs_write TOKEN ACCESS resolve fs req authorization
      = (fs1.setFile (resolve req.path) req.content,
         .ok ⟨resolve req.path, req.content.length, req.mode⟩)
  ∧ (fs_write TOKEN ACCESS resolve fs req authorization).1.node (resolve req.path)
      = some (.file req.content) := by
  have hmain : fs_write TOKEN ACCESS resolve fs req authorization
      = (fs1.setFile (resolve req.path) req.content,
         .ok ⟨resolve req.path, req.content.length, req.mode⟩) := by
    rcases hn : fs1.node (resolve req.path) with _ | nd
    · simp [fs_write, ha, hw, hm, hmk, hn]
    · cases nd with
      | dir => exact absurd hn hnd
      | file c => simp [fs_write, ha, hw, hm, hmk, hn]
  refine ⟨hmain, ?_⟩
  rw [hmain]
  exact FS.setFile_self _ _ _

theorem write_mode_not_validated_witness :
    (fs_write "s" solid resolveSimple (FS.empty.setFile ["f"] "old")
        ⟨"f", "new", "banana"⟩ (some "Bearer s")).1.node ["f"]
      = some (.file "new") :=
  (write_mode_not_validated "s" (some "Bearer s") "s" solid resolveSimple
      (FS.empty.setFile ["f"] "old") ((FS.empty.setFile ["f"] "old").setDir [])
      ⟨"f", "new", "banana"⟩ rfl rfl (by decide) rfl (by decide)).2
